import Mathlib

set_option maxRecDepth 100000

/-!
Verification development for the WellBridge turn-execution pipeline
(`backend/agent` and `backend/guardrails`).

Text is modelled as `List Char`; floats as `ℚ`; fallible external calls
(record-store queries, the LLM rewrite step) as explicit `Option` inputs or
function parameters.  Each definition is a shallow embedding of the Python
function of the same name.
-/

namespace WellBridge

/-! ## Intent routing — `backend/agent/graph.py` and `backend/agent/state.py` -/

/-- The `IntentType` literal enum from `agent/state.py`. -/
inductive IntentType where
  | MEDICAL_ADVICE
  | NOTE_EXPLANATION
  | SCHEDULING
  | RECORD_LOOKUP
  | JARGON_EXPLAIN
  | PRE_VISIT_PREP
  | CARE_NAVIGATION
  | RECORD_COLLECTION
  | GENERAL
deriving DecidableEq, Repr

/-- The node names registered in `build_graph` (`agent/graph.py`). -/
inductive NodeId where
  | emotional_assessor
  | intent_classifier
  | refusal
  | care_navigator
  | record_collector
  | record_lookup
  | note_summarizer
  | note_explainer
  | jargon_explainer
  | calendar_tool
  | medication_info
  | pre_visit_prep
  | guardrail
  | response_assembler
deriving DecidableEq, Repr

open IntentType NodeId

/-- The `safe_low_confidence` set from `route_by_intent` (`agent/graph.py`). -/
def safe_low_confidence : List IntentType :=
  [GENERAL, CARE_NAVIGATION, RECORD_COLLECTION,
   RECORD_LOOKUP, NOTE_EXPLANATION,
   PRE_VISIT_PREP, SCHEDULING, JARGON_EXPLAIN]

/-- `intent not in safe_low_confidence` in `route_by_intent`: a `None` intent is
never a member of the set. -/
def inSafeSet : Option IntentType → Bool
  | some i => safe_low_confidence.contains i
  | none => false

/-- The `routing_map` dictionary in `route_by_intent` (`agent/graph.py`).  The
dictionary keys cover every enum value plus `None`, so the `.get` default
(`"care_navigator"`) is only reachable for `None`/unknown keys; the map is
total here. -/
def routing_map : Option IntentType → NodeId
  | some MEDICAL_ADVICE    => refusal
  | some NOTE_EXPLANATION  => note_explainer
  | some CARE_NAVIGATION   => care_navigator
  | some RECORD_COLLECTION => record_collector
  | some SCHEDULING        => calendar_tool
  | some RECORD_LOOKUP     => record_lookup
  | some JARGON_EXPLAIN    => jargon_explainer
  | some PRE_VISIT_PREP    => pre_visit_prep
  | some GENERAL           => note_summarizer
  | none                   => care_navigator

/-- `route_by_intent` from `agent/graph.py`: the confidence gate is evaluated
first, then the intent-to-node lookup. -/
def route_by_intent (intent : Option IntentType) (confidence : ℚ) : NodeId :=
  if confidence < 7/10 ∧ inSafeSet intent = false then refusal
  else routing_map intent

/-- The `except` branch of `intent_classifier.run`
(`agent/nodes/intent_classifier.py` lines 227-233): on classification failure
the node returns `intent="CARE_NAVIGATION"`, `confidence=0.0`. -/
def classifier_failure_update : Option IntentType × ℚ :=
  (some CARE_NAVIGATION, 0)

/-- `after_tool_node` from `agent/graph.py`: route to the guardrail when a
`raw_response` is present (`is not None`), else straight to the assembler. -/
def after_tool_node (raw_response : Option (List Char)) : NodeId :=
  if raw_response.isSome then NodeId.guardrail else NodeId.response_assembler

/-- Whether the node's module can invoke the generation provider (an
`AsyncOpenAI` chat-completions call), read off each module under
`agent/nodes/`.  `refusal_node.py` and `calendar_tool.py` contain no such
call; `response_assembler.py` delegates suggested-reply generation to a
suggestions service, so it is conservatively marked `true` (no claim depends
on it). -/
def callsGenerationProvider : NodeId → Bool
  | NodeId.refusal => false
  | NodeId.calendar_tool => false
  | _ => true

/-- The node sequence executed after `intent_classifier`, following the edges
wired in `build_graph` (`agent/graph.py`): the router picks the first node;
`refusal` goes straight to `END`; every other tool node goes through
`after_tool_node` to `guardrail` and/or `response_assembler`. -/
def pathAfterClassification (intent : Option IntentType) (confidence : ℚ)
    (raw_response : Option (List Char)) : List NodeId :=
  if route_by_intent intent confidence = NodeId.refusal then [NodeId.refusal]
  else
    route_by_intent intent confidence ::
      (if after_tool_node raw_response = NodeId.guardrail then
        [NodeId.guardrail, NodeId.response_assembler]
      else
        [NodeId.response_assembler])

/-- Helper: when the intent is in the SafeSet the confidence gate cannot
fire, so the router falls through to the lookup table. -/
theorem route_of_inSafeSet (i : Option IntentType) (c : ℚ)
    (h : inSafeSet i = true) : route_by_intent i c = routing_map i := by
  unfold route_by_intent
  rw [if_neg]
  rintro ⟨-, hf⟩
  rw [h] at hf
  exact absurd hf (by decide)

/-- Helper: the confidence gate fires on low confidence outside the SafeSet. -/
theorem route_gate_fires (i : Option IntentType) (c : ℚ)
    (hc : c < 7/10) (hi : inSafeSet i = false) :
    route_by_intent i c = NodeId.refusal := by
  unfold route_by_intent
  rw [if_pos ⟨hc, hi⟩]

/-- Helper: `MEDICAL_ADVICE` is routed to refusal at every confidence. -/
theorem route_medical_advice (c : ℚ) :
    route_by_intent (some MEDICAL_ADVICE) c = NodeId.refusal := by
  unfold route_by_intent
  by_cases h : c < 7/10 ∧ inSafeSet (some MEDICAL_ADVICE) = false
  · rw [if_pos h]
  · rw [if_neg h]; rfl

/-! ### Claims C1, C3, C4, C5 -/

/-- **C1.** For every confidence `c ∈ [0,1]`, the intent router maps
`MEDICAL_ADVICE` to the Refusal terminal, the path after classification is
exactly `[refusal]`, and no node on that path can call the generation
provider. -/
theorem c1_medical_advice_always_refused (c : ℚ) (raw : Option (List Char))
    (h0 : 0 ≤ c) (h1 : c ≤ 1) :
    route_by_intent (some MEDICAL_ADVICE) c = NodeId.refusal ∧
    pathAfterClassification (some MEDICAL_ADVICE) c raw = [NodeId.refusal] ∧
    ∀ n ∈ pathAfterClassification (some MEDICAL_ADVICE) c raw,
      callsGenerationProvider n = false := by
  have hroute := route_medical_advice c
  have hpath : pathAfterClassification (some MEDICAL_ADVICE) c raw
      = [NodeId.refusal] := by
    unfold pathAfterClassification
    rw [hroute, if_pos rfl]
  refine ⟨hroute, hpath, ?_⟩
  rw [hpath]
  intro n hn
  rw [List.mem_singleton] at hn
  subst hn
  rfl

/-- Witness for C1 at the spec's scenario confidence `0.95`. -/
theorem c1_witness :
    route_by_intent (some MEDICAL_ADVICE) (95/100) = NodeId.refusal ∧
    pathAfterClassification (some MEDICAL_ADVICE) (95/100) none = [NodeId.refusal] ∧
    ∀ n ∈ pathAfterClassification (some MEDICAL_ADVICE) (95/100) none,
      callsGenerationProvider n = false :=
  c1_medical_advice_always_refused (95/100) none (by norm_num) (by norm_num)

/-- **C3.** Every intent outside the SafeSet (including a null intent) with
confidence below `0.70` is routed to Refusal. -/
theorem c3_low_confidence_unsafe_refused (i : Option IntentType) (c : ℚ)
    (hc : c < 7/10) (hi : inSafeSet i = false) :
    route_by_intent i c = NodeId.refusal :=
  route_gate_fires i c hc hi

/-- Witness for C3 at `intent = null`, `confidence = 0`. -/
theorem c3_witness : route_by_intent none 0 = NodeId.refusal :=
  c3_low_confidence_unsafe_refused none 0 (by norm_num) (by decide)

/-- **C4.** Every SafeSet intent, at every confidence in `[0,1]`, is not
routed to Refusal (and the explicit advice intent is not a SafeSet member);
in particular `NOTE_EXPLANATION` at confidence `0.40` routes to the
note-explainer tool node. -/
theorem c4_safe_set_never_refused (i : IntentType) (c : ℚ)
    (hi : i ∈ safe_low_confidence) (h0 : 0 ≤ c) (h1 : c ≤ 1) :
    route_by_intent (some i) c ≠ NodeId.refusal ∧
    inSafeSet (some MEDICAL_ADVICE) = false ∧
    route_by_intent (some NOTE_EXPLANATION) (40/100) = NodeId.note_explainer := by
  refine ⟨?_, by decide, ?_⟩
  · have hsafe : inSafeSet (some i) = true := by
      fin_cases hi <;> decide
    rw [route_of_inSafeSet (some i) c hsafe]
    fin_cases hi <;> decide
  · rw [route_of_inSafeSet (some NOTE_EXPLANATION) (40/100) (by decide)]
    rfl

/-- Witness for C4 at `intent = GENERAL`, `confidence = 0.5`. -/
theorem c4_witness :
    route_by_intent (some GENERAL) (1/2) ≠ NodeId.refusal ∧
    inSafeSet (some MEDICAL_ADVICE) = false ∧
    route_by_intent (some NOTE_EXPLANATION) (40/100) = NodeId.note_explainer :=
  c4_safe_set_never_refused GENERAL (1/2) (by decide) (by norm_num) (by norm_num)

/-- **C5 counterexample.** The claim says a failed classification leaves a
null intent with confidence `0.0` and therefore routes to Refusal.  In the
code, the classifier's failure branch instead forces
`intent = CARE_NAVIGATION` (a SafeSet member) with confidence `0.0`, and the
router sends that state to the care-navigation node, not to Refusal. -/
theorem c5_counterexample :
    classifier_failure_update = (some CARE_NAVIGATION, 0) ∧
    route_by_intent classifier_failure_update.1 classifier_failure_update.2
      = NodeId.care_navigator ∧
    route_by_intent classifier_failure_update.1 classifier_failure_update.2
      ≠ NodeId.refusal := by
  have h : route_by_intent classifier_failure_update.1 classifier_failure_update.2
      = NodeId.care_navigator := by
    rw [show classifier_failure_update.1 = some CARE_NAVIGATION from rfl,
        show classifier_failure_update.2 = 0 from rfl,
        route_of_inSafeSet (some CARE_NAVIGATION) 0 (by decide)]
    rfl
  exact ⟨rfl, h, by rw [h]; exact fun hc => absurd hc (by decide)⟩

/-- **C5 amended.** A truly null intent with confidence below the gate routes
to Refusal via the confidence gate (the lookup default for a null intent is
the care-navigation node, so Refusal can only come from the gate); but a
classification *failure* does not leave a null intent: the failure branch
forces `intent = CARE_NAVIGATION` with confidence `0.0`, which routes to the
care-navigation node. -/
theorem c5_null_intent_gate (c : ℚ) (hc : c < 7/10) :
    route_by_intent none c = NodeId.refusal ∧
    routing_map none = NodeId.care_navigator ∧
    route_by_intent classifier_failure_update.1 classifier_failure_update.2
      = NodeId.care_navigator := by
  refine ⟨route_gate_fires none c hc rfl, rfl, ?_⟩
  rw [show classifier_failure_update.1 = some CARE_NAVIGATION from rfl,
      show classifier_failure_update.2 = 0 from rfl,
      route_of_inSafeSet (some CARE_NAVIGATION) 0 (by decide)]
  rfl

/-- Witness for the amended C5 at confidence `0`. -/
theorem c5_witness :
    route_by_intent none 0 = NodeId.refusal ∧
    routing_map none = NodeId.care_navigator ∧
    route_by_intent classifier_failure_update.1 classifier_failure_update.2
      = NodeId.care_navigator :=
  c5_null_intent_gate 0 (by norm_num)

/-! ## Text primitives shared by the guardrails

Python semantics modelled on ASCII text: `str.lower`, `str.strip(chars)`,
`\w` word characters, and the whitespace class of `\s` / `str.strip()`. -/

/-- ASCII lowercasing, as `str.lower` acts on the ASCII texts involved. -/
def asciiLower (c : Char) : Char :=
  if 'A' ≤ c ∧ c ≤ 'Z' then Char.ofNat (c.toNat + 32) else c

/-- Python `s.strip(chars)`: remove characters of `set` from both ends. -/
def pyStripChars (set : List Char) (w : List Char) : List Char :=
  ((w.dropWhile (fun c => set.contains c)).reverse.dropWhile
    (fun c => set.contains c)).reverse

/-- Python whitespace, for `str.strip()` and the regex class `\s` (ASCII). -/
def PY_WS : List Char := " \t\n\r\x0b\x0c".data

/-- Python `s.strip()`. -/
def pyStrip (w : List Char) : List Char := pyStripChars PY_WS w

/-- `\w` word characters (ASCII): letters, digits, underscore. -/
def wordChar (c : Char) : Bool := c.isAlpha || c.isDigit || c = '_'

/-! ## Readability guard — `backend/guardrails/readability_guard.py` -/

/-- Lowercase vowels, the class `[aeiou]` in `count_syllables`. -/
def isVowel (c : Char) : Bool :=
  c = 'a' || c = 'e' || c = 'i' || c = 'o' || c = 'u'

/-- `len(re.findall(r"[aeiou]+", word))`: the number of maximal runs of
vowels in `word`. -/
def vowelGroups (w : List Char) : ℕ :=
  (w.foldl
    (fun acc c =>
      (if isVowel c && !acc.2 then acc.1 + 1 else acc.1, isVowel c))
    ((0 : ℕ), false)).1

/-- The strip set `".,!?;:\"'()"` used by `count_syllables`. -/
def SYLLABLE_STRIP : List Char := ".,!?;:\x22\x27()".data

/-- `word.lower().strip(".,!?;:\"'()")` — the normalisation line of
`count_syllables`. -/
def normalizeWord (w : List Char) : List Char :=
  pyStripChars SYLLABLE_STRIP (w.map asciiLower)

/-- `if word.endswith("e") and len(word) > 4: word = word[:-1]` — the
trailing-silent-e removal. -/
def dropSilentE (word : List Char) : List Char :=
  if word.getLastD ' ' = 'e' ∧ 4 < word.length then word.dropLast else word

/-- `word.endswith("le") and len(word) > 2 and word[-3] not in "aeiou"`. -/
def endsConsLe (word : List Char) : Bool :=
  match word.reverse with
  | 'e' :: 'l' :: c :: _ => !(isVowel c)
  | _ => false

/-- `word.endswith("ed")`. -/
def endsEd (word : List Char) : Bool :=
  match word.reverse with
  | 'd' :: 'e' :: _ => true
  | _ => false

/-- `count_syllables` from `readability_guard.py`: normalise, return 0 for an
empty word and 1 for a word of at most three letters, otherwise drop a
trailing silent e, count vowel groups, apply the `le`/`ed` adjustments and
floor at 1. -/
def count_syllables (w : List Char) : ℕ :=
  if normalizeWord w = [] then 0
  else if (normalizeWord w).length ≤ 3 then 1
  else
    max 1
      (if endsEd (dropSilentE (normalizeWord w)) ∧
          1 < (if endsConsLe (dropSilentE (normalizeWord w)) then
                vowelGroups (dropSilentE (normalizeWord w)) + 1
              else vowelGroups (dropSilentE (normalizeWord w))) then
        (if endsConsLe (dropSilentE (normalizeWord w)) then
          vowelGroups (dropSilentE (normalizeWord w)) + 1
        else vowelGroups (dropSilentE (normalizeWord w))) - 1
      else
        (if endsConsLe (dropSilentE (normalizeWord w)) then
          vowelGroups (dropSilentE (normalizeWord w)) + 1
        else vowelGroups (dropSilentE (normalizeWord w))))

/-- Modelled from the spec: §4.4 words the syllable heuristic as "count
vowel-letter groups per word, drop a trailing silent e before counting (for
words longer than 4 letters), add one syllable for a le ending preceded by a
consonant, subtract one for an ed ending when the running count exceeds one,
and floor every word at 1 syllable" — with no special case for short words.
Applied to an already tokenised (lowercase) word. -/
def spec_syllable_heuristic (word : List Char) : ℕ :=
  max 1
    (if endsEd (dropSilentE word) ∧
        1 < (if endsConsLe (dropSilentE word) then
              vowelGroups (dropSilentE word) + 1
            else vowelGroups (dropSilentE word)) then
      (if endsConsLe (dropSilentE word) then
        vowelGroups (dropSilentE word) + 1
      else vowelGroups (dropSilentE word)) - 1
    else
      (if endsConsLe (dropSilentE word) then
        vowelGroups (dropSilentE word) + 1
      else vowelGroups (dropSilentE word)))

/-! ### Claim C9 -/

/-- **C9 counterexample.** The code short-circuits words of at most three
letters to exactly one syllable, a case the spec's heuristic does not have:
on the word `"ago"` the code returns 1 while the spec's heuristic (two vowel
groups, no adjustment, floor at 1) returns 2. -/
theorem c9_counterexample :
    count_syllables "ago".data = 1 ∧
    spec_syllable_heuristic "ago".data = 2 ∧
    count_syllables "ago".data ≠ spec_syllable_heuristic "ago".data := by
  refine ⟨by decide, by decide, by decide⟩

/-- **C9 amended.** The code's syllable count equals the spec's heuristic for
every word longer than three letters after normalisation; words of at most
three letters (and at least one character) are short-circuited to exactly one
syllable instead. -/
theorem c9_syllables_amended (w : List Char) :
    (3 < (normalizeWord w).length →
      count_syllables w = spec_syllable_heuristic (normalizeWord w)) ∧
    (normalizeWord w ≠ [] → (normalizeWord w).length ≤ 3 →
      count_syllables w = 1) := by
  constructor
  · intro h
    have hne : ¬ (normalizeWord w = []) := by
      intro he
      rw [he] at h
      simp at h
    have hgt : ¬ ((normalizeWord w).length ≤ 3) := not_le.mpr h
    unfold count_syllables
    rw [if_neg hne, if_neg hgt]
    rfl
  · intro hne hle
    unfold count_syllables
    rw [if_neg hne, if_pos hle]

/-- Witness for the amended C9 at the words `"hello"` (long) and `"ago"`
(short). -/
theorem c9_witness :
    count_syllables "hello".data
      = spec_syllable_heuristic (normalizeWord "hello".data) ∧
    count_syllables "ago".data = 1 :=
  ⟨(c9_syllables_amended "hello".data).1 (by decide),
   (c9_syllables_amended "ago".data).2 (by decide) (by decide)⟩

/-- `re.split(r"[.!?]+", text)` up to empty pieces: split at every sentence
terminator (a run of terminators yields empty pieces, which the caller's
strip-and-filter removes, so the count is the same as splitting on runs). -/
def splitSentences (l : List Char) : List (List Char) :=
  l.foldr
    (fun c acc =>
      if c = '.' || c = '!' || c = '?' then [] :: acc
      else
        match acc with
        | [] => [[c]]
        | h :: t => (c :: h) :: t)
    [[]]

/-- `[a-zA-Z']` — the token class of the word regex in `check_readability`. -/
def wordTokenChar (c : Char) : Bool := c.isAlpha || c = '\x27'

/-- For the word regex `\b[a-zA-Z']+\b`: given the reversed candidate run and
the word-ness of the character right after it, the length of the longest
nonempty prefix of the run whose final position is a word boundary (the
prefix the greedy engine backtracks to). -/
def bestTokenLen : List Char → Bool → ℕ → Option ℕ
  | [], _, _ => none
  | c :: rs, afterW, k =>
      if wordChar c != afterW then some k else bestTokenLen rs (wordChar c) (k - 1)

/-- One attempt of the regex `\b[a-zA-Z']+\b` at the head of `s`, with `prevW`
the word-ness of the preceding character: checks the opening boundary, takes
the maximal run of class characters and backtracks to the longest prefix that
ends at a boundary.  Returns the token and the rest of the text. -/
def tokenAt (prevW : Bool) (s : List Char) : Option (List Char × List Char) :=
  match s with
  | [] => none
  | c :: t =>
      if !(wordTokenChar c) || (prevW == wordChar c) then none
      else
        let run := (c :: t).takeWhile wordTokenChar
        let rest := (c :: t).drop run.length
        let nextW := match rest with
          | [] => false
          | d :: _ => wordChar d
        match bestTokenLen run.reverse nextW run.length with
        | none => none
        | some k => some (run.take k, (c :: t).drop k)

/-- The scan loop of `re.findall(r"\b[a-zA-Z']+\b", text)`: try a match at
each position left to right, resuming after each emitted token.  `fuel`
bounds the recursion by the text length. -/
def findWordsAux : ℕ → Bool → List Char → List (List Char)
  | 0, _, _ => []
  | _ + 1, _, [] => []
  | fuel + 1, prevW, c :: t =>
      match tokenAt prevW (c :: t) with
      | some (tok, rest) =>
          tok :: findWordsAux fuel (wordChar (tok.getLastD ' ')) rest
      | none => findWordsAux fuel (wordChar c) t

/-- `re.findall(r"\b[a-zA-Z']+\b", text)` from `check_readability`. -/
def findWords (text : List Char) : List (List Char) :=
  findWordsAux text.length false text

/-- Python `round(q, 2)`, modelled with Mathlib's nearest-integer rounding on
`ℚ` (Python rounds ties to even on binary floats; the two agree except at
exact two-decimal ties and both are monotone). -/
def round2 (q : ℚ) : ℚ := ((round (q * 100) : ℤ) : ℚ) / 100

/-- The Flesch-Kincaid line of `check_readability`:
`round(max(0.0, 0.39 * asl + 11.8 * asw - 15.59), 2)`. -/
def fkGrade (asl asw : ℚ) : ℚ :=
  round2 (max 0 (39/100 * asl + 59/5 * asw - 1559/100))

/-- `check_readability` from `readability_guard.py`: 0 for empty or
whitespace-only text, 0 when no sentences or no words are found, otherwise
the rounded clamped FK grade of (words/sentences, syllables/words). -/
def check_readability (text : List Char) : ℚ :=
  if pyStrip text = [] then 0
  else
    let sentences := ((splitSentences text).map pyStrip).filter (fun s => s ≠ [])
    if sentences.length = 0 then 0
    else
      let words := findWords text
      if words.length = 0 then 0
      else
        fkGrade ((words.length : ℚ) / (sentences.length : ℚ))
          (((words.map count_syllables).sum : ℚ) / (words.length : ℚ))

/-! ### Claim C8 -/

/-- **C8.** The readability grade of the empty string is 0, and the FK grade
is monotonically non-decreasing in average sentence length with average
syllables-per-word fixed, and in average syllables-per-word with average
sentence length fixed. -/
theorem c8_readability_monotone :
    check_readability [] = 0 ∧
    (∀ asl asl' asw : ℚ, asl ≤ asl' → fkGrade asl asw ≤ fkGrade asl' asw) ∧
    (∀ asl asw asw' : ℚ, asw ≤ asw' → fkGrade asl asw ≤ fkGrade asl asw') := by
  have key : ∀ x y : ℚ, x ≤ y → round2 (max 0 x) ≤ round2 (max 0 y) := by
    intro x y hxy
    unfold round2
    have h2 : max 0 x ≤ max 0 y := max_le_max le_rfl hxy
    have h3 : (round (max 0 x * 100) : ℤ) ≤ round (max 0 y * 100) := by
      rw [round_eq, round_eq]
      exact Int.floor_le_floor (by nlinarith)
    have h4 : ((round (max 0 x * 100) : ℤ) : ℚ) ≤ ((round (max 0 y * 100) : ℤ) : ℚ) := by
      exact_mod_cast h3
    linarith
  refine ⟨rfl, ?_, ?_⟩
  · intro asl asl' asw h
    exact key _ _ (by nlinarith)
  · intro asl asw asw' h
    exact key _ _ (by nlinarith)

/-- Witness for C8: empty text grades 0, and two concrete monotonicity
instances. -/
theorem c8_witness :
    check_readability [] = 0 ∧
    fkGrade 5 (3/2) ≤ fkGrade 10 (3/2) ∧
    fkGrade 5 (3/2) ≤ fkGrade 5 2 :=
  ⟨c8_readability_monotone.1,
   c8_readability_monotone.2.1 5 10 (3/2) (by norm_num),
   c8_readability_monotone.2.2 5 (3/2) 2 (by norm_num)⟩

/-! ## Medical output guard — `backend/guardrails/medical_output_guard.py`

The prohibited-phrase patterns use a small regex fragment: case-insensitive
literals, alternation, optional groups, `\d+`, `\s*`, and `\b` at both ends
of every pattern.  `Rx` embeds that fragment; `Rx.run` returns every possible
remainder after matching a prefix (the engine's backtracking choices). -/

inductive Rx where
  | lit (s : List Char)
  | cat (a b : Rx)
  | alt (a b : Rx)
  | opt (a : Rx)
  | digits
  | spaces
deriving Repr

/-- Case-insensitive literal match of `p` against a prefix of `s`; returns
the remainder. -/
def matchLit : List Char → List Char → Option (List Char)
  | [], s => some s
  | _, [] => none
  | p :: ps, c :: cs =>
      if asciiLower c = asciiLower p then matchLit ps cs else none

/-- Remainders after `\d+` consumes 1..n leading digits. -/
def digitRemainders (s : List Char) : List (List Char) :=
  (List.range (s.takeWhile (fun c => c.isDigit)).length).map
    (fun i => s.drop (i + 1))

/-- Remainders after `\s*` consumes 0..m leading whitespace characters. -/
def spaceRemainders (s : List Char) : List (List Char) :=
  (List.range ((s.takeWhile (fun c => PY_WS.contains c)).length + 1)).map
    (fun i => s.drop i)

/-- All remainders of `s` after the regex matches one of its prefixes. -/
def Rx.run : Rx → List Char → List (List Char)
  | Rx.lit p, s =>
      match matchLit p s with
      | some r => [r]
      | none => []
  | Rx.cat a b, s => (Rx.run a s).flatMap (fun r => Rx.run b r)
  | Rx.alt a b, s => Rx.run a s ++ Rx.run b s
  | Rx.opt a, s => Rx.run a s ++ [s]
  | Rx.digits, s => digitRemainders s
  | Rx.spaces, s => spaceRemainders s

/-- The trailing `\b` of a pattern: every pattern ends in a letter, so the
boundary holds exactly when the remainder starts with a non-word character
(or is empty). -/
def tailBoundaryOk : List Char → Bool
  | [] => true
  | c :: _ => !(wordChar c)

/-- The pattern body matches at the head of `s` with a word boundary at its
end. -/
def hitsAt (e : Rx) (s : List Char) : Bool :=
  (e.run s).any tailBoundaryOk

/-- `pattern.search(text)` for a `\b`-delimited pattern body `e`: try every
start position; the leading `\b` holds exactly when the previous character is
absent or a non-word character (every pattern body starts with a letter). -/
def searchFrom (e : Rx) : Bool → List Char → Bool
  | prevW, [] => !prevW && hitsAt e []
  | prevW, c :: t => (!prevW && hitsAt e (c :: t)) || searchFrom e (wordChar c) t

/-- `bool(pattern.search(text))` with the `\b ... \b` wrapping. -/
def rxSearch (e : Rx) (s : List Char) : Bool := searchFrom e false s

/-- Shorthand for a literal. -/
def rlit (s : String) : Rx := Rx.lit s.data

/-- Alternation of two literal words. -/
def ralt2 (a b : String) : Rx := Rx.alt (rlit a) (rlit b)

/-- Alternation of three literal words. -/
def ralt3 (a b c : String) : Rx := Rx.alt (rlit a) (Rx.alt (rlit b) (rlit c))

/-- Alternation of five literal words. -/
def ralt5 (a b c d e : String) : Rx :=
  Rx.alt (rlit a) (Rx.alt (rlit b) (Rx.alt (rlit c) (Rx.alt (rlit d) (rlit e))))

/-- `_RAW_PATTERNS` / `COMPILED_PATTERNS` from `medical_output_guard.py`:
the ordered list of (pattern body, audit name); every source pattern is
`\b`-delimited, which `rxSearch` adds around the body. -/
def COMPILED_PATTERNS : List (Rx × List Char) := [
  (rlit "I diagnose", "I_diagnose".data),
  (rlit "I recommend", "I_recommend".data),
  (rlit "I suggest", "I_suggest".data),
  (rlit "try this instead", "try_this_instead".data),
  (Rx.cat (rlit "you ")
    (Rx.cat (ralt3 "should" "must" "need to")
      (Rx.cat (rlit " ") (ralt5 "take" "stop" "start" "avoid" "use"))),
   "prescriptive_should".data),
  (Rx.cat (rlit "This ")
    (Rx.cat (ralt3 "indicates" "suggests" "means") (rlit " you have")),
   "diagnostic_this_indicates".data),
  (Rx.cat (rlit "You ")
    (Rx.cat (ralt3 "likely" "probably" "definitely") (rlit " have")),
   "you_likely_have".data),
  (rlit "Your condition is", "your_condition_is".data),
  (Rx.cat (rlit "I ")
    (Rx.cat (ralt3 "would" "will" "can") (rlit " prescribe")),
   "prescribe".data),
  (Rx.cat (rlit "you are ")
    (Rx.cat (ralt2 "likely" "probably")
      (Rx.cat (rlit " ") (ralt2 "developing" "experiencing"))),
   "you_are_developing".data),
  (ralt3 "cut out" "stop eating" "avoid eating", "dietary_advice".data),
  (Rx.cat (rlit "take ")
    (Rx.cat (Rx.opt (Rx.cat Rx.digits Rx.spaces))
      (ralt5 "mg" "milligram" "tablet" "pill" "dose")),
   "dosage_recommendation".data),
  (Rx.cat (rlit "seek ")
    (Rx.cat (ralt3 "immediate" "emergency" "urgent")
      (Rx.cat (rlit " ")
        (Rx.cat (Rx.opt (rlit "medical ")) (ralt3 "help" "care" "attention")))),
   "emergency_directive".data)
]

/-- `SAFE_FALLBACK` from `medical_output_guard.py`. -/
def SAFE_FALLBACK : List Char :=
  ("I wasn\x27t able to generate a safe response for that request. " ++
   "Please contact your care team directly for medical guidance.\n\n" ++
   "You can reach me for factual questions about your own documented records.").data

/-- `apply_medical_guardrail` from `medical_output_guard.py`: return
`(SAFE_FALLBACK, True, name)` for the first matching pattern, else
`(text, False, "")`. -/
def apply_medical_guardrail (text : List Char) : List Char × Bool × List Char :=
  match COMPILED_PATTERNS.find? (fun pr => rxSearch pr.1 text) with
  | some pr => (SAFE_FALLBACK, true, pr.2)
  | none => (text, false, [])

/-! ## Guardrail node — `backend/agent/nodes/guardrail_node.py` -/

/-- `JargonMapping` from `agent/state.py`. -/
structure JargonMapping where
  term : List Char
  plain_english : List Char
  source_note_id : List Char
  source_sentence : List Char
  char_offset_start : ℕ
  char_offset_end : ℕ
deriving DecidableEq, Repr

/-- The partial state update returned by `guardrail_node.run`. -/
structure GuardOut where
  final_response : List Char
  jargon_map : List JargonMapping
deriving DecidableEq, Repr

/-- `READABILITY_THRESHOLD = 8.0` from `guardrail_node.py`. -/
def READABILITY_THRESHOLD : ℚ := 8

/-- `guardrail_node.run`: stage 1 is the prohibited-phrase scan (replace the
whole response with `SAFE_FALLBACK` and clear `jargon_map` on a match); stage
2 is the readability gate (rewrite via the LLM `simplify` call and clear
`jargon_map` when the grade exceeds the threshold); otherwise pass the text
and the incoming `jargon_map` through unchanged.  The LLM rewrite
`_simplify_text` is an external provider call, modelled as the `simplify`
parameter; the best-effort `_log_violation` append has no effect on the
returned update and is omitted. -/
def guardrail_run (simplify : List Char → List Char)
    (raw_response : Option (List Char)) (jargon_map : List JargonMapping) :
    GuardOut :=
  if (apply_medical_guardrail (raw_response.getD [])).2.1 then
    ⟨SAFE_FALLBACK, []⟩
  else if READABILITY_THRESHOLD <
      check_readability (apply_medical_guardrail (raw_response.getD [])).1 then
    ⟨simplify (apply_medical_guardrail (raw_response.getD [])).1, []⟩
  else
    ⟨(apply_medical_guardrail (raw_response.getD [])).1, jargon_map⟩

/-! ### Claims C2 and C7 -/

/-- **C2.** For every raw text matching at least one Stage-1 pattern, the
guardrail replaces the entire response with `SAFE_FALLBACK` and clears the
jargon map, whatever the text, the incoming jargon map, or the rewrite oracle
are. -/
theorem c2_stage1_forces_fallback (simplify : List Char → List Char)
    (raw : List Char) (jm : List JargonMapping)
    (h : ∃ pr ∈ COMPILED_PATTERNS, rxSearch pr.1 raw = true) :
    guardrail_run simplify (some raw) jm = ⟨SAFE_FALLBACK, []⟩ ∧
    (apply_medical_guardrail raw).1 = SAFE_FALLBACK := by
  obtain ⟨pr, hmem, hpr⟩ := h
  obtain ⟨q, hq⟩ : ∃ q, COMPILED_PATTERNS.find? (fun x => rxSearch x.1 raw) = some q := by
    cases hfind : COMPILED_PATTERNS.find? (fun x => rxSearch x.1 raw) with
    | none => exact absurd hpr (by simpa using List.find?_eq_none.mp hfind pr hmem)
    | some q => exact ⟨q, rfl⟩
  have hguard : apply_medical_guardrail raw = (SAFE_FALLBACK, true, q.2) := by
    unfold apply_medical_guardrail
    rw [hq]
  constructor
  · unfold guardrail_run
    simp only [Option.getD_some, hguard, if_true]
  · rw [hguard]

/-- Witness for C2 on the spec's scenario text `"you should stop taking"`
(embedded in a sentence). -/
theorem c2_witness :
    guardrail_run id (some "I think you should stop taking this".data) []
      = ⟨SAFE_FALLBACK, []⟩ ∧
    (apply_medical_guardrail "I think you should stop taking this".data).1
      = SAFE_FALLBACK :=
  c2_stage1_forces_fallback id "I think you should stop taking this".data []
    (by decide)

/-- **C7.** The guardrail is idempotent on its own fallback: on
`SAFE_FALLBACK` (with the empty jargon map a Stage-1 replacement leaves
behind) it returns `SAFE_FALLBACK` unchanged with an empty jargon map,
because no Stage-1 pattern matches the fallback and its readability grade
does not exceed the 8.0 threshold — so the rewrite oracle is never invoked,
whatever it is. -/
theorem c7_guardrail_idempotent_on_fallback (simplify : List Char → List Char) :
    guardrail_run simplify (some SAFE_FALLBACK) [] = ⟨SAFE_FALLBACK, []⟩ ∧
    (apply_medical_guardrail SAFE_FALLBACK).2.1 = false ∧
    check_readability SAFE_FALLBACK ≤ READABILITY_THRESHOLD := by
  have hall : COMPILED_PATTERNS.all (fun pr => !(rxSearch pr.1 SAFE_FALLBACK)) = true := by
    decide
  have hfind : COMPILED_PATTERNS.find? (fun x => rxSearch x.1 SAFE_FALLBACK) = none := by
    rw [List.find?_eq_none]
    intro x hx
    have hx2 := List.all_eq_true.mp hall x hx
    simp only [Bool.not_eq_eq_eq_not, Bool.not_true] at hx2
    simp [hx2]
  have hguard : apply_medical_guardrail SAFE_FALLBACK = (SAFE_FALLBACK, false, []) := by
    unfold apply_medical_guardrail
    rw [hfind]
  have hstrip : ¬ (pyStrip SAFE_FALLBACK = []) := by decide
  have hsent : (((splitSentences SAFE_FALLBACK).map pyStrip).filter
      (fun s => s ≠ [])).length = 3 := by decide
  have hwords : (findWords SAFE_FALLBACK).length = 32 := by decide
  have hsyl : ((findWords SAFE_FALLBACK).map count_syllables).sum = 51 := by decide
  have hread : check_readability SAFE_FALLBACK = fkGrade (32/3) (51/32) := by
    unfold check_readability
    rw [if_neg hstrip]
    simp only [hsent, hwords, hsyl]
    norm_num
  have hgrade : fkGrade (32/3) (51/32) = 369/50 := by
    unfold fkGrade round2
    rw [max_eq_right (by norm_num)]
    have h1 : (39/100 * (32/3) + 59/5 * (51/32) - 1559/100 : ℚ) * 100 = 5901/8 := by
      norm_num
    rw [h1, round_eq]
    have h2 : ((5901 : ℚ)/8 + 1/2) = 5905/8 := by norm_num
    rw [h2]
    have h3 : ⌊(5905 : ℚ)/8⌋ = 738 := by
      rw [Int.floor_eq_iff]
      norm_num
    rw [h3]
    norm_num
  have hle : check_readability SAFE_FALLBACK ≤ READABILITY_THRESHOLD := by
    rw [hread, hgrade]
    unfold READABILITY_THRESHOLD
    norm_num
  refine ⟨?_, by rw [hguard], hle⟩
  unfold guardrail_run
  rw [Option.getD_some, hguard]
  rw [if_neg (by simp : ¬ ((SAFE_FALLBACK, false, ([] : List Char)).2.1 = true))]
  rw [if_neg (not_lt.mpr hle)]

/-! ## Refusal terminal — `backend/agent/nodes/refusal_node.py` -/

/-- `REFUSAL_TEMPLATE` from `refusal_node.py`. -/
def REFUSAL_TEMPLATE : List Char :=
  ("I\x27m not able to give medical advice, diagnoses, or treatment recommendations. " ++
   "For medical concerns, please contact your care team directly.\n\n" ++
   "I found these notes from your care team that may be relevant:").data

/-- `NO_RECORDS_TEMPLATE` from `refusal_node.py`. -/
def NO_RECORDS_TEMPLATE : List Char :=
  ("I\x27m not able to give medical advice, diagnoses, or treatment recommendations. " ++
   "Please contact your care team directly for medical questions.").data

/-- A row of the `search_patient_notes` record-store query in
`refusal_node.run`; `.get` misses are modelled as `none`
(`note_date` is already passed through `str(...)`). -/
structure NoteRow where
  note_date : List Char
  provider_name : Option (List Char)
  relevant_excerpt : Option (List Char)

/-- One iteration of the row loop in `refusal_node.run`:
`f"{provider} ({date_str}): {excerpt}"` for a row with a nonempty stripped
excerpt, nothing otherwise. -/
def rowFact (r : NoteRow) : Option (List Char) :=
  if pyStrip (r.relevant_excerpt.getD []) = [] then none
  else some (r.provider_name.getD "Your care team".data ++ " (".data ++
    r.note_date.take 10 ++ "): ".data ++ pyStrip (r.relevant_excerpt.getD []))

/-- The `context_facts` list built by `refusal_run`: empty when the DB call
raised (the `except` branch), else the facts of the returned rows in order. -/
def refusal_context_facts_of (dbResult : Option (List NoteRow)) : List (List Char) :=
  match dbResult with
  | none => []
  | some rows => rows.filterMap rowFact

/-- `"\n".join(f"  • {fact}" for fact in context_facts)`. -/
def bulletsOf (facts : List (List Char)) : List Char :=
  List.intercalate "\n".data (facts.map (fun f => "  • ".data ++ f))

/-- The partial state update returned by `refusal_node.run`. -/
structure RefusalOut where
  final_response : List Char
  refusal_context_facts : List (List Char)
  jargon_map : List JargonMapping
  raw_response : Option (List Char)

/-- `refusal_node.run` as a function of the record-store result (`none`
models a query that raised): never a provider call, hard-coded templates,
`raw_response` explicitly `None`. -/
def refusal_run (dbResult : Option (List NoteRow)) : RefusalOut :=
  if refusal_context_facts_of dbResult ≠ [] then
    ⟨REFUSAL_TEMPLATE ++ "\n\n".data ++ bulletsOf (refusal_context_facts_of dbResult),
     refusal_context_facts_of dbResult, [], none⟩
  else
    ⟨NO_RECORDS_TEMPLATE, refusal_context_facts_of dbResult, [], none⟩

/-! ### Claim C6 -/

/-- **C6.** Every refusal outcome — on every record-store result, including a
failed query — has `raw_response = None`, and its `final_response` is either
the no-records template or the refusal template concatenated with the
bulleted retrieved facts (which are then nonempty). -/
theorem c6_refusal_outcome_invariant (db : Option (List NoteRow)) :
    (refusal_run db).raw_response = none ∧
    ((refusal_run db).final_response = NO_RECORDS_TEMPLATE ∨
      (refusal_context_facts_of db ≠ [] ∧
        (refusal_run db).final_response
          = REFUSAL_TEMPLATE ++ "\n\n".data ++
            bulletsOf (refusal_context_facts_of db))) := by
  unfold refusal_run
  by_cases h : refusal_context_facts_of db ≠ []
  · rw [if_pos h]
    exact ⟨rfl, Or.inr ⟨h, rfl⟩⟩
  · rw [if_neg h]
    exact ⟨rfl, Or.inl rfl⟩

/-! ## Jargon annotator — `backend/agent/nodes/note_summarizer.py` -/

/-- An annotation candidate produced by the generation step
(`JargonEntry` in `note_summarizer.py`). -/
structure JargonEntry where
  term : List Char
  plain_english : List Char
  source_note_id : List Char
  source_sentence : List Char

/-- `lower_summary.find(lower_term)`: index of the first occurrence of `pat`
in `hay`, `none` when absent (Python's `-1`). -/
def findSub (hay pat : List Char) : Option ℕ :=
  if pat.isPrefixOf hay then some 0
  else
    match hay with
    | [] => none
    | _ :: t => (findSub t pat).map (fun n => n + 1)

/-- The jargon-map loop of `note_summarizer.run` (lines 112-128): for each
candidate, search case-insensitively for the first occurrence of its term in
the summary; drop the candidate if absent, else emit the mapping with
`char_offset_start = idx` and `char_offset_end = idx + len(term)`. -/
def annotate_jargon (summary : List Char) (entries : List JargonEntry) :
    List JargonMapping :=
  entries.filterMap (fun e =>
    match findSub (summary.map asciiLower) (e.term.map asciiLower) with
    | none => none
    | some idx => some ⟨e.term, e.plain_english, e.source_note_id,
        e.source_sentence, idx, idx + e.term.length⟩)

/-- Helper: a hit of `findSub` really is an occurrence. -/
theorem findSub_isPrefixOf (hay pat : List Char) (k : ℕ)
    (h : findSub hay pat = some k) : pat.isPrefixOf (hay.drop k) = true := by
  induction hay generalizing k with
  | nil =>
      unfold findSub at h
      by_cases hp : pat.isPrefixOf [] = true
      · rw [if_pos hp] at h
        cases h
        exact hp
      · rw [if_neg hp] at h
        cases h
  | cons c t ih =>
      unfold findSub at h
      by_cases hp : pat.isPrefixOf (c :: t) = true
      · rw [if_pos hp] at h
        cases h
        exact hp
      · rw [if_neg hp] at h
        have h2 : Option.map (fun n => n + 1) (findSub t pat) = some k := h
        cases hfs : findSub t pat with
        | none => rw [hfs] at h2; cases h2
        | some k0 =>
            rw [hfs] at h2
            rw [show Option.map (fun n => n + 1) (some k0) = some (k0 + 1) from rfl] at h2
            cases h2
            exact ih k0 hfs

/-- Helper: `findSub` returns the first occurrence. -/
theorem findSub_first (hay pat : List Char) (k : ℕ)
    (h : findSub hay pat = some k) :
    ∀ j, j < k → pat.isPrefixOf (hay.drop j) = false := by
  induction hay generalizing k with
  | nil =>
      unfold findSub at h
      by_cases hp : pat.isPrefixOf [] = true
      · rw [if_pos hp] at h
        cases h
        intro j hj
        exact absurd hj (Nat.not_lt_zero j)
      · rw [if_neg hp] at h
        cases h
  | cons c t ih =>
      unfold findSub at h
      by_cases hp : pat.isPrefixOf (c :: t) = true
      · rw [if_pos hp] at h
        cases h
        intro j hj
        exact absurd hj (Nat.not_lt_zero j)
      · rw [if_neg hp] at h
        have h2 : Option.map (fun n => n + 1) (findSub t pat) = some k := h
        cases hfs : findSub t pat with
        | none => rw [hfs] at h2; cases h2
        | some k0 =>
            rw [hfs] at h2
            rw [show Option.map (fun n => n + 1) (some k0) = some (k0 + 1) from rfl] at h2
            cases h2
            intro j hj
            cases j with
            | zero => simpa using Bool.eq_false_iff.mpr hp
            | succ j0 =>
                have := ih k0 hfs j0 (Nat.lt_of_succ_lt_succ hj)
                simpa using this

/-! ### Claim C10 -/

/-- Helper: a verified occurrence really is the slice of the text there. -/
theorem isPrefixOf_take_eq (p l : List Char) (h : p.isPrefixOf l = true) :
    l.take p.length = p := by
  induction p generalizing l with
  | nil => simp
  | cons a p ih =>
      cases l with
      | nil => simp [List.isPrefixOf] at h
      | cons b t =>
          simp only [List.isPrefixOf, Bool.and_eq_true, beq_iff_eq] at h
          obtain ⟨h1, h2⟩ := h
          simp [List.take, h1, ih t h2]

/-- **C10.** Offset round-trip for the jargon annotator: a candidate whose
term does not occur (case-insensitively) in the summary is silently dropped;
a candidate whose term first occurs at index `k` is emitted with
`char_offset_start = k` and `char_offset_end = k + len(term)`, the summary
slice `[k, k+len(term))` case-insensitively equals the term, and no earlier
index is an occurrence. -/
theorem c10_jargon_offset_round_trip (summary : List Char) (e : JargonEntry) :
    (findSub (summary.map asciiLower) (e.term.map asciiLower) = none →
      annotate_jargon summary [e] = []) ∧
    (∀ k, findSub (summary.map asciiLower) (e.term.map asciiLower) = some k →
      annotate_jargon summary [e]
        = [⟨e.term, e.plain_english, e.source_note_id, e.source_sentence,
            k, k + e.term.length⟩] ∧
      ((summary.drop k).take e.term.length).map asciiLower
        = e.term.map asciiLower ∧
      ∀ j, j < k →
        (e.term.map asciiLower).isPrefixOf ((summary.map asciiLower).drop j)
          = false) := by
  constructor
  · intro h
    unfold annotate_jargon
    simp [h]
  · intro k h
    refine ⟨?_, ?_, findSub_first _ _ k h⟩
    · unfold annotate_jargon
      simp [h]
    · have hpre := findSub_isPrefixOf _ _ k h
      have htake := isPrefixOf_take_eq _ _ hpre
      rw [List.length_map] at htake
      rw [← List.map_drop, ← List.map_take] at htake
      exact htake

/-- Witness for C10: the term `"metformin"` first occurs (case-insensitively)
at index 5 of `"Take Metformin twice daily"`. -/
theorem c10_witness :
    annotate_jargon "Take Metformin twice daily".data
      [⟨"metformin".data, "a diabetes medicine".data, "id1".data, "s1".data⟩]
      = [⟨"metformin".data, "a diabetes medicine".data, "id1".data, "s1".data,
          5, 5 + "metformin".data.length⟩] ∧
    (("Take Metformin twice daily".data.drop 5).take
        "metformin".data.length).map asciiLower
      = "metformin".data.map asciiLower :=
  ⟨((c10_jargon_offset_round_trip "Take Metformin twice daily".data
      ⟨"metformin".data, "a diabetes medicine".data, "id1".data, "s1".data⟩).2
      5 (by decide)).1,
   ((c10_jargon_offset_round_trip "Take Metformin twice daily".data
      ⟨"metformin".data, "a diabetes medicine".data, "id1".data, "s1".data⟩).2
      5 (by decide)).2.1⟩

end WellBridge

